import Mathlib

/-!
# Verification of the YouTube channel analyzer (`app.py`)

Shallow embedding of the analytics core of the repository: identifier
parsing (`extract_channel_from_input`), the ISO-8601 duration codec
(`parse_iso8601_duration_to_seconds`), short-number formatting
(`short_number`), short/long and recency bucketing, the originality
scorer (`metadata_originality_analysis`), the per-channel orchestrator
(`analyze_channel_full`) and the batch endpoint (`api_analyze`).

Modelling conventions:
* Python `int` is `ℤ` (or `ℕ` where the source value is a count).
  Python `float` arithmetic is modelled as exact rational arithmetic
  over `ℚ`.  The floating-point square root used by the originality
  scorer has no exact rational counterpart, so it is kept as an explicit
  function parameter `sqrtQ` of the environment; theorems about the
  scorer hold for every possible value of that parameter.
* Python `int(x)` truncates toward zero (`pyInt`); Python `round`
  rounds half to even (`pyRoundHalfEven`).
* Python strings are Lean `String`s, but all traversals (strip,
  substring search, splitting) are implemented structurally over
  `List Char` so that every definition evaluates by kernel reduction.
  Python's `str.isdigit`/whitespace are modelled by the corresponding
  ASCII predicates on `Char`.
* Timestamps are UTC epoch seconds (`ℤ`); `timedelta(days=30)` is
  `30 * 86400` seconds.  `datetime.fromisoformat` and `strftime` are
  standard-library collaborators, modelled as the abstract functions
  `parseTS` / `formatTS` of the environment (parse failure = `none`,
  which the source converts to exclusion resp. `"N/A"`).
* The remote YouTube API is the abstract collaborator interface `Env`
  (channel lookup, channel search, playlist listing, video metadata),
  mirroring §6 of the design: the wire protocol is out of scope.  The
  playlist pagination and the batched-by-50 video fetch are abstracted to one
  call each; the call trace returned by `analyze_channel_full` records
  which collaborator calls the control flow issues, in order.
* Collaborator calls can raise (`HttpError` from `.execute()`):
  `channels`, `playlistItems` and `videos` return `Except String _`,
  and an `Except.error` propagates uncaught out of
  `analyze_channel_full` (the source has no `try` there) into the
  route's catch-all, which turns it into the batch-wide
  `{"success": False, "error": "Server error"}` response
  (`ApiResponse.serverError`), discarding every sibling entry.  The
  `search` call is the one exception: `resolve_handle_to_channel_id`
  wraps it in its own `try`/`except` returning `None`, so a raise and
  an empty result list are indistinguishable there and it stays an
  `Option`.
-/

attribute [local semireducible] Rat.mul Rat.add Rat.sub Rat.inv Rat.ofScientific

namespace YTAnalyzer

/-! ## Python numeric primitives -/

/-- Python `int(x)` on a real value: truncation toward zero. -/
def pyInt (q : ℚ) : ℤ :=
  if 0 ≤ q then ⌊q⌋ else -⌊-q⌋

/-- Python `round(x)` (no decimals): round half to even. -/
def pyRoundHalfEven (q : ℚ) : ℤ :=
  let f := ⌊q⌋
  let r := q - (f : ℚ)
  if r < 1/2 then f
  else if 1/2 < r then f + 1
  else if f % 2 = 0 then f else f + 1

/-- Rendering of a non-negative value rounded (half to even) to one
decimal place, as Python renders `round(v, 1)` in an f-string and
`f"{v:.1f}"` for the non-negative values reaching this code. -/
def oneDecimal (q : ℚ) : String :=
  let m := pyRoundHalfEven (10 * q)
  (m.tdiv 10).repr ++ "." ++ (m.tmod 10).repr

/-- Python `round(x, 2)`, yielding a rational with two decimals. -/
def pyRound2 (q : ℚ) : ℚ :=
  ((pyRoundHalfEven (100 * q) : ℤ) : ℚ) / 100

/-! ## Configuration constants of `app.py` -/

def MAX_CHANNELS : ℕ := 5
def SHORTS_MAX_SECONDS : ℕ := 60
def RECENT_DAYS : ℕ := 30

/-! ## `short_number` (lines 42-58) -/

/-- The unit loop of `short_number`: walk `["", "K", "M", "B", "T"]`,
dividing by 1000 while the magnitude is at least 1000.  The `[]` case is
the final `return f"{round(value,1)}T"` after the loop exhausts. -/
def shortNumberLoop : ℚ → List String → String
  | v, [] => oneDecimal v ++ "T"
  | v, unit :: rest =>
    if |v| < 1000 then
      if unit = "" then (pyInt v).repr
      else if 100 ≤ v then (pyRoundHalfEven v).repr ++ unit
      else oneDecimal v ++ unit
    else shortNumberLoop (v / 1000) rest

/-- `short_number(n)` for an integer input (the `int(n)` conversion
succeeded).  Values below 1000 — including all negatives — render
unchanged; larger values go through the unit loop. -/
def short_number (n : ℤ) : String :=
  if n < 1000 then n.repr
  else shortNumberLoop (n : ℚ) ["", "K", "M", "B", "T"]

/-! ## Duration codec `parse_iso8601_duration_to_seconds` (lines 74-93) -/

/-- Python `int` of a non-empty string of digits. -/
def digitsVal (l : List Char) : ℕ :=
  l.foldl (fun a c => 10 * a + (c.toNat - 48)) 0

/-- Python `dur.replace("PT", "")`: remove every occurrence of the
substring `"PT"`, scanning left to right without overlap. -/
def removeAllPT : List Char → List Char
  | 'P' :: 'T' :: rest => removeAllPT rest
  | c :: rest => c :: removeAllPT rest
  | [] => []

/-- The character scan of the duration codec: digits accumulate into the
buffer `num`; `H`/`M`/`S` flush the buffer into the total with weight
3600/60/1; any other character (and a unit with an empty buffer)
contributes nothing, and a non-digit always clears the buffer. -/
def durLoop : List Char → List Char → ℕ → ℕ
  | [], _, sec => sec
  | c :: rest, num, sec =>
    if c.isDigit then durLoop rest (num ++ [c]) sec
    else if num = [] then durLoop rest [] sec
    else if c = 'H' then durLoop rest [] (sec + digitsVal num * 3600)
    else if c = 'M' then durLoop rest [] (sec + digitsVal num * 60)
    else if c = 'S' then durLoop rest [] (sec + digitsVal num)
    else durLoop rest [] sec

/-- `parse_iso8601_duration_to_seconds`: total on all strings; empty
input short-circuits to 0; otherwise every `"PT"` substring is removed
(the source uses `str.replace`, not a prefix strip) and the scan runs. -/
def parse_iso8601_duration_to_seconds (dur : String) : ℕ :=
  if dur = "" then 0
  else durLoop (removeAllPT dur.data) [] 0

/-- Modelled from the spec (§4.2), for comparison with the source: the
spec describes the codec as stripping the fixed `"PT"` **prefix** if
present (rather than removing every occurrence of the substring), then
running the same scan. -/
def parseDurationSpecModel (dur : String) : ℕ :=
  if dur = "" then 0
  else
    let body := match dur.data with
      | 'P' :: 'T' :: rest => rest
      | l => l
    durLoop body [] 0

/-! ## String helpers for the identifier parser (all structural) -/

/-- Python `str.strip()`: drop leading and trailing whitespace. -/
def pyStrip (l : List Char) : List Char :=
  ((l.dropWhile Char.isWhitespace).reverse.dropWhile Char.isWhitespace).reverse

/-- Python `needle in s`: substring containment. -/
def containsSub (pat : List Char) : List Char → Bool
  | [] => decide (pat = [])
  | c :: rest => pat.isPrefixOf (c :: rest) || containsSub pat rest

/-- The remainder after the first occurrence of `pat` (`[]` if absent):
the tail that `s.split(pat)[1:]` would rejoin. -/
def afterFirst (pat : List Char) : List Char → List Char
  | [] => []
  | c :: rest =>
    if pat.isPrefixOf (c :: rest) then (c :: rest).drop pat.length
    else afterFirst pat rest

/-- Python `s.split(sep)[0]` for a one-character separator. -/
def upToFirst (sep : Char) (l : List Char) : List Char :=
  l.takeWhile (fun c => decide (c ≠ sep))

/-- Python `s.rstrip(x)` for a one-character strip set. -/
def rstripAll (x : Char) (l : List Char) : List Char :=
  (l.reverse.dropWhile (fun c => decide (c = x))).reverse

/-- Python `s.split("/")[-1]`: the suffix after the last `/` (the whole
string when there is no `/`). -/
def lastSegment (l : List Char) : List Char :=
  (l.reverse.takeWhile (fun c => decide (c ≠ '/'))).reverse

/-! ## `extract_channel_from_input` (lines 96-115) -/

/-- The branch cascade of `extract_channel_from_input`, on the already
stripped input characters. -/
def extractStripped (s : List Char) : Option String × Option String :=
  if s = [] then (none, none)
  else if "UC".data.isPrefixOf s ∧ 20 < s.length then
    (some ⟨s⟩, some ("https://www.youtube.com/channel/" ++ ⟨s⟩))
  else if containsSub "youtube.com".data s then
    if containsSub "/channel/".data s then
      let cid := (afterFirst "/channel/".data s).takeWhile
        (fun c => decide (c ≠ '/') && decide (c ≠ '?'))
      (some ⟨cid⟩, some ("https://www.youtube.com/channel/" ++ ⟨cid⟩))
    else
      (none, some ⟨rstripAll '/' (upToFirst '?' s)⟩)
  else if s.head? = some '@' then
    (none, some ("https://www.youtube.com/" ++ ⟨s⟩))
  else
    (none, some ⟨s⟩)

/-- The identifier parser.  `none` input models Python `None` (the
source evaluates `(inp or "").strip()`).  Returns
`(literal channel id?, canonical hint?)`. -/
def extract_channel_from_input (inp : Option String) : Option String × Option String :=
  extractStripped (pyStrip (inp.getD "").data)

/-! ## Data model -/

/-- A normalized video record, as produced by `fetch_videos_metadata`:
`publishedAt` may be absent (the snippet field can be missing), the
duration is the codec's output in seconds. -/
structure Video where
  id : String
  title : String
  description : String
  publishedAt : Option String
  views : ℕ
  durationSeconds : ℕ
  deriving DecidableEq

/-- The decoded channel profile, i.e. the result `fetch_channel_basic`
assembles from one platform lookup (`none` overall = empty `items`). -/
structure ChannelBasic where
  channel_id : String
  title : String
  profile_pic : Option String
  subscribers : ℕ
  uploads_playlist : Option String
  deriving DecidableEq

/-- The collaborator interface (§6 of the design) plus the two
standard-library collaborators (timestamp parsing/formatting) and the
floating-point square root of the scorer.  `channels`, `playlistItems`
and `videos` may raise a transport error (`Except.error`, carrying the
exception text); `search` is only ever called inside the
`try`/`except` of `resolve_handle_to_channel_id`, where a raise and an
empty result list both surface as `none`. -/
structure Env where
  search : String → Option String
  channels : String → Except String (Option ChannelBasic)
  playlistItems : String → Except String (List String)
  videos : List String → Except String (List Video)
  now : ℤ
  parseTS : String → Option ℤ
  formatTS : String → Option String
  sqrtQ : ℚ → ℚ

/-- One collaborator network call, as recorded by the orchestrator. -/
inductive ApiCall where
  | search (q : String)
  | channels (id : String)
  | playlistItems (pid : String)
  | videos (ids : List String)
  deriving DecidableEq

/-! ## Originality engine (lines 220-260) -/

/-- Trimmed descriptions, in order (`descs` in the source). -/
def descsOf (vs : List Video) : List String :=
  vs.map (fun v => (⟨pyStrip v.description.data⟩ : String))

/-- The duration list (`durations` in the source). -/
def durationsOf (vs : List Video) : List ℕ :=
  vs.map (·.durationSeconds)

/-- A count divided by `max 1 N` (the denominator floor of the scorer). -/
def natRatio (k n : ℕ) : ℚ := (k : ℚ) / ((max 1 n : ℕ) : ℚ)

/-- Fraction of videos whose trimmed description is non-empty and shared
verbatim with at least one other video. -/
def desc_dup_ratio (vs : List Video) : ℚ :=
  natRatio ((descsOf vs).filter
    (fun d => decide (d ≠ "") && decide (1 < (descsOf vs).count d))).length vs.length

/-- Fraction of videos whose trimmed description is empty or shorter
than 10 characters. -/
def empty_desc_ratio (vs : List Video) : ℚ :=
  natRatio ((descsOf vs).filter
    (fun d => decide (d = "") || decide (d.length < 10))).length vs.length

/-- Fraction of videos at most `SHORTS_MAX_SECONDS` long. -/
def shorts_ratio (vs : List Video) : ℚ :=
  natRatio ((durationsOf vs).filter
    (fun d => decide (d ≤ SHORTS_MAX_SECONDS))).length vs.length

/-- Mean duration with the `max 1 N` denominator floor (`avg_dur`). -/
def avg_dur (vs : List Video) : ℚ :=
  (((durationsOf vs).sum : ℕ) : ℚ) / ((max 1 vs.length : ℕ) : ℚ)

/-- Population variance of the durations, same denominator floor
(`std_dur ** 2` in the source before the square root). -/
def dur_variance (vs : List Video) : ℚ :=
  ((durationsOf vs).map (fun x => ((x : ℚ) - avg_dur vs) ^ 2)).sum
    / ((max 1 vs.length : ℕ) : ℚ)

/-- `dur_uniformity = 1 - std_dur / (avg_dur + 1)`, with the square
root of the variance supplied by `sqrtQ`. -/
def dur_uniformity (sqrtQ : ℚ → ℚ) (vs : List Video) : ℚ :=
  1 - sqrtQ (dur_variance vs) / (avg_dur vs + 1)

/-- The real-valued score before clamping (lines 236-239). -/
def raw_score (sqrtQ : ℚ → ℚ) (vs : List Video) : ℚ :=
  100 - 20 * (desc_dup_ratio vs + 0.5 * empty_desc_ratio vs)
    - 15 * shorts_ratio vs - 10 * (1 - dur_uniformity sqrtQ vs)

/-- `final_score = int(max(0, min(100, score)))`: clamp to `[0, 100]`,
then truncate toward zero. -/
def final_score (sqrtQ : ℚ → ℚ) (vs : List Video) : ℤ :=
  pyInt (max 0 (min 100 (raw_score sqrtQ vs)))

/-- The four signals as returned by the scorer. -/
structure OriginalitySignals where
  desc_dup_ratio : ℚ
  empty_desc_ratio : ℚ
  shorts_ratio : ℚ
  dur_uniformity : ℚ
  deriving DecidableEq

/-- The scorer's full result `(final_score, explanation, signals)`. -/
structure OriginalityResult where
  score : ℤ
  explanation : List String
  signals : OriginalitySignals
  deriving DecidableEq

/-- The explanation notes, in source order, with the "no signal"
fallback when none applies (lines 243-253). -/
def originality_explanation (sqrtQ : ℚ → ℚ) (vs : List Video) : List String :=
  let l :=
    (if 0.2 < desc_dup_ratio vs then ["Duplicate descriptions detected."] else []) ++
    (if 0.4 < empty_desc_ratio vs then ["Many videos have empty descriptions."] else []) ++
    (if 0.85 < shorts_ratio vs then ["Mostly shorts content — reused content risk."] else []) ++
    (if dur_uniformity sqrtQ vs < 0.3 then ["Durations too uniform — templated content."] else [])
  if l = [] then ["No reused-content signals detected."] else l

/-- `metadata_originality_analysis` (the source also trims the titles
into a local `titles` list that is never read afterwards; that dead
binding is omitted). -/
def metadata_originality_analysis (sqrtQ : ℚ → ℚ) (vs : List Video) : OriginalityResult :=
  { score := final_score sqrtQ vs
    explanation := originality_explanation sqrtQ vs
    signals :=
      { desc_dup_ratio := desc_dup_ratio vs
        empty_desc_ratio := empty_desc_ratio vs
        shorts_ratio := shorts_ratio vs
        dur_uniformity := dur_uniformity sqrtQ vs } }

/-! ## Bucketing & cadence (inside `analyze_channel_full`, lines 283-351) -/

/-- Lifetime short split: `duration_seconds <= SHORTS_MAX_SECONDS`. -/
def shortsOf (vs : List Video) : List Video :=
  vs.filter (fun v => decide (v.durationSeconds ≤ SHORTS_MAX_SECONDS))

/-- Lifetime long split: `duration_seconds > SHORTS_MAX_SECONDS`. -/
def longsOf (vs : List Video) : List Video :=
  vs.filter (fun v => decide (SHORTS_MAX_SECONDS < v.durationSeconds))

/-- Sum of the `views` of a split. -/
def viewsSum (vs : List Video) : ℕ :=
  (vs.map (·.views)).sum

/-- The 30-day cutoff `datetime.now(utc) - timedelta(days=RECENT_DAYS)`,
in epoch seconds. -/
def cutoff (env : Env) : ℤ := env.now - (RECENT_DAYS : ℤ) * 86400

/-- The parsed `publishedAt` of a record: absent field or parse failure
both end in the `except: continue` of the source. -/
def parsedTS (env : Env) (v : Video) : Option ℤ :=
  v.publishedAt.bind env.parseTS

/-- Whether a record enters the recency window: parsable timestamp and
`dt >= cut` (inclusive lower bound). -/
def isRecent (env : Env) (v : Video) : Bool :=
  match parsedTS env v with
  | none => false
  | some t => decide (cutoff env ≤ t)

/-- `shorts_30`: recent and short. -/
def shorts_30 (env : Env) (vs : List Video) : List Video :=
  vs.filter (fun v => isRecent env v && decide (v.durationSeconds ≤ SHORTS_MAX_SECONDS))

/-- `longs_30`: recent and long. -/
def longs_30 (env : Env) (vs : List Video) : List Video :=
  vs.filter (fun v => isRecent env v && decide (SHORTS_MAX_SECONDS < v.durationSeconds))

/-- `avg_duration(lst)`: mean `duration_seconds`, 0 for an empty split. -/
def avg_duration (lst : List Video) : ℚ :=
  if lst = [] then 0
  else (((durationsOf lst).sum : ℕ) : ℚ) / ((lst.length : ℕ) : ℚ)

/-- The human rendering of an average duration: the source guards with
the truthiness of the float `avg` itself (`f"..." if avg else "N/A"`),
and renders `int(avg // 60)` minutes and `int(avg % 60)` seconds.  For
the non-negative `avg`, both `int` conversions are floors and
`avg % 60 = avg - 60 * (avg // 60)`. -/
def avg_duration_human (lst : List Video) : String :=
  let a := avg_duration lst
  if a ≠ 0 then
    (⌊a / 60⌋).repr ++ "m " ++ (⌊a - 60 * ((⌊a / 60⌋ : ℤ) : ℚ)⌋).repr ++ "s"
  else "N/A"

/-- `human_date(iso)`: `"N/A"` for an absent or empty value, else the
standard-library `fromisoformat` + `strftime` rendering (abstracted as
`Env.formatTS`; a parse failure is caught into `"N/A"`). -/
def human_date (env : Env) (iso : Option String) : String :=
  match iso with
  | none => "N/A"
  | some s => if s = "" then "N/A" else (env.formatTS s).getD "N/A"

/-- Python `best < v` on the `publishedAt` keys (both present). -/
def pubLt (best v : Video) : Bool :=
  decide ((best.publishedAt.getD "") < (v.publishedAt.getD ""))

/-- Python `max(vlist, key=...)`: keep the current best on ties, so the
first maximal element wins. -/
def maxByPublished (best : Video) : List Video → Video
  | [] => best
  | v :: rest => maxByPublished (if pubLt best v then v else best) rest

/-- `latest(vlist)`: `"N/A"` for an empty split; a `None` key anywhere
makes Python's `max`/`human_date` path end in `"N/A"` (the comparison
raises `TypeError` into the `except`, and a single `None` key fails the
`human_date` guard); otherwise the maximal `publishedAt` is rendered. -/
def latestDate (env : Env) (vlist : List Video) : String :=
  match vlist with
  | [] => "N/A"
  | v :: rest =>
    if (v :: rest).any (fun w => w.publishedAt.isNone) then "N/A"
    else human_date env (maxByPublished v rest).publishedAt

/-- `freq(count)` for the 30-day window (lines 339-346). -/
def freq (count : ℕ) : String :=
  if count = 0 then "Rarely uploads"
  else
    let per_week : ℚ := (count : ℚ) / (RECENT_DAYS : ℚ) * 7
    if per_week < 1 then
      "1 upload every " ++ (pyInt (7 / per_week)).repr ++ " days"
    else oneDecimal per_week ++ " uploads/week"

/-! ## Orchestrator `analyze_channel_full` (lines 266-396) -/

/-- The full per-channel report (the dict of lines 356-396). -/
structure Report where
  channel_id : String
  title : String
  profile_pic : Option String
  subscribers : ℕ
  subscribers_fmt : String
  monetization : String
  originality_score : ℤ
  originality_explanation : List String
  originality_signals : OriginalitySignals
  shorts_count : ℕ
  videos_count : ℕ
  videos_scanned : ℕ
  total_shorts_views_lifetime : ℕ
  total_long_views_lifetime : ℕ
  total_shorts_views_lifetime_fmt : String
  total_long_views_lifetime_fmt : String
  shorts_30d_count : ℕ
  videos_30d_count : ℕ
  total_shorts_views_30d : ℕ
  total_long_views_30d : ℕ
  total_shorts_views_30d_fmt : String
  total_long_views_30d_fmt : String
  shorts_frequency_text : String
  videos_frequency_text : String
  uploads_per_week_recent : ℚ
  avg_short_duration_human : String
  avg_long_duration_human : String
  last_uploaded_short : String
  last_uploaded_video : String
  deriving DecidableEq

/-- Python truthiness of an optional string: `None` and `""` are falsy. -/
def isFalsyOpt : Option String → Bool
  | none => true
  | some s => decide (s = "")

/-- Python `a or b` for optional strings. -/
def pyOr (a b : Option String) : Option String :=
  match a with
  | some s => if s = "" then b else some s
  | none => b

/-- `resolve_handle_to_channel_id`: a `None` argument raises inside the
`try` before any call (caught to `None`); otherwise the final path
segment of the stripped argument is searched as a channel query.  The
second component is the network-call trace. -/
def resolve_handle_to_channel_id (env : Env) (arg : Option String) :
    Option String × List ApiCall :=
  match arg with
  | none => (none, [])
  | some s =>
    let q : String := ⟨lastSegment (pyStrip s.data)⟩
    (env.search q, [ApiCall.search q])

/-- The resolution step of the orchestrator (lines 269-273): take the
literal id when truthy, else fall back to the search lookup on
`canonical or channel_input`; a falsy lookup result resolves to `none`. -/
def resolve_cid (env : Env) (inp : Option String) : Option String × List ApiCall :=
  let ec := extract_channel_from_input inp
  let fb := fun (_ : Unit) =>
    let r := resolve_handle_to_channel_id env (pyOr ec.2 inp)
    match r.1 with
    | some c => (if c = "" then none else some c, r.2)
    | none => (none, r.2)
  match ec.1 with
  | some c => if c = "" then fb () else (some c, [])
  | none => fb ()

/-- Assembly of the report from the profile and the metadata list. -/
def buildReport (env : Env) (ch : ChannelBasic) (videos_meta : List Video) : Report :=
  let shorts := shortsOf videos_meta
  let longs := longsOf videos_meta
  let s30 := shorts_30 env videos_meta
  let l30 := longs_30 env videos_meta
  let orig := metadata_originality_analysis env.sqrtQ videos_meta
  { channel_id := ch.channel_id
    title := ch.title
    profile_pic := ch.profile_pic
    subscribers := ch.subscribers
    subscribers_fmt := short_number (ch.subscribers : ℤ)
    monetization := "UNKNOWN — YouTube does not show publicly"
    originality_score := orig.score
    originality_explanation := orig.explanation
    originality_signals := orig.signals
    shorts_count := shorts.length
    videos_count := longs.length
    videos_scanned := videos_meta.length
    total_shorts_views_lifetime := viewsSum shorts
    total_long_views_lifetime := viewsSum longs
    total_shorts_views_lifetime_fmt := short_number (viewsSum shorts : ℤ)
    total_long_views_lifetime_fmt := short_number (viewsSum longs : ℤ)
    shorts_30d_count := s30.length
    videos_30d_count := l30.length
    total_shorts_views_30d := viewsSum s30
    total_long_views_30d := viewsSum l30
    total_shorts_views_30d_fmt := short_number (viewsSum s30 : ℤ)
    total_long_views_30d_fmt := short_number (viewsSum l30 : ℤ)
    shorts_frequency_text := freq s30.length
    videos_frequency_text := freq l30.length
    uploads_per_week_recent :=
      pyRound2 (((s30.length + l30.length : ℕ) : ℚ) / (RECENT_DAYS : ℚ) * 7)
    avg_short_duration_human := avg_duration_human shorts
    avg_long_duration_human := avg_duration_human longs
    last_uploaded_short := latestDate env shorts
    last_uploaded_video := latestDate env longs }

/-- The outcome of one `analyze_channel_full` call: a report, the
source's returned `{"error": ...}` dict, or an uncaught exception (an
`HttpError` from a collaborator `.execute()`) propagating out of the
function — the source wraps none of its collaborator calls in a `try`
except the search lookup. -/
inductive Outcome where
  | report (r : Report)
  | errorDict (e : String)
  | raised (e : String)
  deriving DecidableEq

/-- Whether the outcome is an uncaught exception. -/
def Outcome.isRaised : Outcome → Bool
  | Outcome.raised _ => true
  | _ => false

/-- The report of a completed successful analysis, if any. -/
def Outcome.reportPart : Outcome → Option Report
  | Outcome.report r => some r
  | _ => none

/-- The `{channel, error}` pair of a completed failed analysis, if any. -/
def Outcome.errorEntry (c : Option String) : Outcome → Option (Option String × String)
  | Outcome.errorDict e => some (c, e)
  | _ => none

/-- `analyze_channel_full`: resolve, fetch the profile, list and fetch
the uploads (a falsy uploads playlist means zero videos and no listing
call; an empty id list means no metadata call), then build the report.
A transport error from the profile, playlist or video call propagates
as `Outcome.raised`.  Returns the outcome and the ordered
collaborator-call trace. -/
def analyze_channel_full (env : Env) (inp : Option String) :
    Outcome × List ApiCall :=
  let rc := resolve_cid env inp
  match rc.1 with
  | none => (Outcome.errorDict "Could not resolve channel ID", rc.2)
  | some cid =>
    let tr1 := rc.2 ++ [ApiCall.channels cid]
    match env.channels cid with
    | Except.error e => (Outcome.raised e, tr1)
    | Except.ok none => (Outcome.errorDict "Channel not found", tr1)
    | Except.ok (some ch) =>
      if isFalsyOpt ch.uploads_playlist then
        (Outcome.report (buildReport env ch []), tr1)
      else
        let pl := ch.uploads_playlist.getD ""
        match env.playlistItems pl with
        | Except.error e => (Outcome.raised e, tr1 ++ [ApiCall.playlistItems pl])
        | Except.ok ids =>
          let tr2 := tr1 ++ [ApiCall.playlistItems pl]
          if ids = [] then (Outcome.report (buildReport env ch []), tr2)
          else
            match env.videos ids with
            | Except.error e => (Outcome.raised e, tr2 ++ [ApiCall.videos ids])
            | Except.ok meta =>
              (Outcome.report (buildReport env ch meta), tr2 ++ [ApiCall.videos ids])

/-! ## Batch endpoint `/api/analyze` (lines 441-461) -/

/-- The `for` loop of `api_analyze`, run under the route's `try`:
sequential, one entry per analyzed input (report on success,
`(channel, error)` pair on failure), aborted by the first uncaught
exception, whose message propagates to the catch-all. -/
def analyzeLoop (env : Env) :
    List (Option String) → Except String (List Report × List (Option String × String))
  | [] => Except.ok ([], [])
  | c :: rest =>
    match (analyze_channel_full env c).1 with
    | Outcome.raised e => Except.error e
    | Outcome.errorDict e =>
      match analyzeLoop env rest with
      | Except.error e2 => Except.error e2
      | Except.ok (rs, es) => Except.ok (rs, (c, e) :: es)
    | Outcome.report r =>
      match analyzeLoop env rest with
      | Except.error e2 => Except.error e2
      | Except.ok (rs, es) => Except.ok (r :: rs, es)

/-- The JSON response of the `/api/analyze` route: the success payload
`{"success": True, "results": ..., "errors": ...}`, or the catch-all
`{"success": False, "error": "Server error"}` (HTTP 500) that any
uncaught exception inside the loop produces — discarding every
already-computed sibling entry. -/
inductive ApiResponse where
  | success (results : List Report) (errors : List (Option String × String))
  | serverError
  deriving DecidableEq

/-- The `results` list of the response (empty on the 500 path, which
carries no per-channel data at all). -/
def ApiResponse.resultsList : ApiResponse → List Report
  | ApiResponse.success rs _ => rs
  | ApiResponse.serverError => []

/-- The `errors` list of the response (empty on the 500 path). -/
def ApiResponse.errorsList : ApiResponse → List (Option String × String)
  | ApiResponse.success _ es => es
  | ApiResponse.serverError => []

/-- `api_analyze`: analyze the first `MAX_CHANNELS` inputs under the
route's `try`/`except`. -/
def api_analyze (env : Env) (inputs : List (Option String)) : ApiResponse :=
  match analyzeLoop env (inputs.take MAX_CHANNELS) with
  | Except.error _ => ApiResponse.serverError
  | Except.ok (rs, es) => ApiResponse.success rs es

/-! ## Concrete environments used by witnesses and counterexamples -/

/-- A channel profile with no uploads playlist. -/
def chValid : ChannelBasic :=
  { channel_id := "UCAAAAAAAAAAAAAAAAAAAAAA"
    title := "Valid Channel"
    profile_pic := none
    subscribers := 1234
    uploads_playlist := none }

/-- An environment where the search resolves `"UCvalid"` to an existing
channel and `"UCinvalid"` to an id whose profile lookup returns absent;
every other query (including the empty one) finds nothing. -/
def envA : Env :=
  { search := fun q =>
      if q = "UCvalid" then some "UCAAAAAAAAAAAAAAAAAAAAAA"
      else if q = "UCinvalid" then some "UCBBBBBBBBBBBBBBBBBBBBBB"
      else none
    channels := fun i =>
      if i = "UCAAAAAAAAAAAAAAAAAAAAAA" then Except.ok (some chValid) else Except.ok none
    playlistItems := fun _ => Except.ok []
    videos := fun _ => Except.ok []
    now := 0
    parseTS := fun _ => none
    formatTS := fun _ => none
    sqrtQ := fun _ => 0 }

/-- An environment whose profile lookup raises a transport error
(`HttpError`) for the channel id that `"UCraise"` resolves to, while
`"UCvalid"` still resolves to an existing channel. -/
def envB : Env :=
  { search := fun q =>
      if q = "UCvalid" then some "UCAAAAAAAAAAAAAAAAAAAAAA"
      else if q = "UCraise" then some "UCCCCCCCCCCCCCCCCCCCCCCC"
      else none
    channels := fun i =>
      if i = "UCAAAAAAAAAAAAAAAAAAAAAA" then Except.ok (some chValid)
      else if i = "UCCCCCCCCCCCCCCCCCCCCCCC" then Except.error "HttpError"
      else Except.ok none
    playlistItems := fun _ => Except.ok []
    videos := fun _ => Except.ok []
    now := 0
    parseTS := fun _ => none
    formatTS := fun _ => none
    sqrtQ := fun _ => 0 }

/-- An environment whose clock makes the 30-day cutoff fall on epoch 0,
and which parses the timestamp strings `"T0"` (the cutoff instant) and
`"Tm1"` (one second older). -/
def envT : Env :=
  { search := fun _ => none
    channels := fun _ => Except.ok none
    playlistItems := fun _ => Except.ok []
    videos := fun _ => Except.ok []
    now := 2592000
    parseTS := fun s => if s = "T0" then some 0 else if s = "Tm1" then some (-1) else none
    formatTS := fun _ => none
    sqrtQ := fun _ => 0 }

/-- A 30-second video published exactly at `envT`'s cutoff instant. -/
def vidAtCutoff : Video :=
  { id := "a", title := "t", description := "d", publishedAt := some "T0"
    views := 0, durationSeconds := 30 }

/-- A video published one second before `envT`'s cutoff. -/
def vidBeforeCutoff : Video :=
  { id := "b", title := "t", description := "d", publishedAt := some "Tm1"
    views := 0, durationSeconds := 30 }

/-- A video with an unparsable timestamp. -/
def vidNoTS : Video :=
  { id := "c", title := "t", description := "d", publishedAt := some "garbage"
    views := 0, durationSeconds := 90 }

/-- A video of duration 0 (e.g. a record whose duration field failed to
parse, which the codec turns into 0). -/
def vidZeroDur : Video :=
  { id := "z", title := "t", description := "d", publishedAt := none
    views := 0, durationSeconds := 0 }

/-! ## Helper lemmas -/

/-- `natRatio` is non-negative. -/
theorem natRatio_nonneg (k n : ℕ) : 0 ≤ natRatio k n := by
  unfold natRatio
  positivity

/-- `natRatio k n ≤ 1` whenever `k ≤ n`. -/
theorem natRatio_le_one {k n : ℕ} (h : k ≤ n) : natRatio k n ≤ 1 := by
  unfold natRatio
  rw [div_le_one (by exact_mod_cast lt_of_lt_of_le one_pos (le_max_left 1 n))]
  exact_mod_cast h.trans (le_max_right 1 n)

/-- `pyInt` agrees with the floor on non-negative arguments. -/
theorem pyInt_eq_floor_of_nonneg {q : ℚ} (h : 0 ≤ q) : pyInt q = ⌊q⌋ := by
  simp [pyInt, h]

/-- `Nat.toDigitsCore` never shrinks its accumulator. -/
theorem toDigitsCore_len_le (b : ℕ) (fuel n : ℕ) (acc : List Char) :
    acc.length ≤ (Nat.toDigitsCore b fuel n acc).length := by
  induction fuel generalizing n acc with
  | zero => simp [Nat.toDigitsCore]
  | succ f ih =>
    simp only [Nat.toDigitsCore]
    split
    · simp
    · exact le_trans (by simp) (ih _ _)

/-- The decimal rendering of a natural number is never empty. -/
theorem one_le_nat_repr_len (n : ℕ) : 1 ≤ (Nat.repr n).length := by
  show 1 ≤ (Nat.toDigits 10 n).asString.length
  rw [List.length_asString]
  show 1 ≤ (Nat.toDigitsCore 10 (n + 1) n []).length
  simp only [Nat.toDigitsCore]
  split
  · simp
  · exact le_trans (by simp) (toDigitsCore_len_le 10 n (n / 10) _)

/-- The decimal rendering of an integer is never empty. -/
theorem one_le_int_repr_len (n : ℤ) : 1 ≤ n.repr.length := by
  cases n with
  | ofNat m => exact one_le_nat_repr_len m
  | negSucc m =>
    show 1 ≤ ("-" ++ Nat.repr (m + 1)).length
    rw [String.length_append]
    have := one_le_nat_repr_len (m + 1)
    omega

/-! ## Claims -/

/-- C9: for every list of video records, the short/long classification
by the fixed threshold `durationSeconds <= 60` is an exact partition:
`shortsCount + longCount = videosScanned`, where `videosScanned` is the
length of the full metadata list. -/
theorem shorts_longs_partition (vs : List Video) :
    (shortsOf vs).length + (longsOf vs).length = vs.length := by
  induction vs with
  | nil => rfl
  | cons v rest ih =>
    by_cases h : v.durationSeconds ≤ SHORTS_MAX_SECONDS
    · have h2 : ¬ SHORTS_MAX_SECONDS < v.durationSeconds := Nat.not_lt.mpr h
      simp [shortsOf, longsOf, List.filter_cons, h, h2] at ih ⊢
      omega
    · have h2 : SHORTS_MAX_SECONDS < v.durationSeconds := Nat.lt_of_not_le h
      simp [shortsOf, longsOf, List.filter_cons, h, h2] at ih ⊢
      omega

/-- C4 counterexample: `short_number(1000000)` renders as `"1.0M"`, not
`"1M"`: the scaled value `1.0` is below 100, so the one-decimal branch
`f"{round(value, 1)}{unit}"` applies, and Python renders the float
`1.0` with its decimal point. -/
theorem short_number_million_cex :
    short_number 1000000 ≠ "1M" ∧ short_number 1000000 = "1.0M" := by
  constructor
  · decide
  · decide

/-- C4 (amended): the spec's test values with `"1.0M"` in place of
`"1M"`, plus the below-1000 identity rendering. -/
theorem short_number_values :
    short_number 999 = "999" ∧ short_number 1500 = "1.5K" ∧
    short_number 1000000 = "1.0M" ∧ short_number 250 = "250" ∧
    ∀ n : ℤ, n < 1000 → short_number n = n.repr := by
  refine ⟨by decide, by decide, by decide, by decide, ?_⟩
  intro n h
  simp [short_number, h]

/-- C4 witness: the universally quantified conjunct at `n = 7`. -/
theorem short_number_values_witness :
    (7 : ℤ) < 1000 ∧ short_number 7 = (7 : ℤ).repr :=
  ⟨by decide, short_number_values.2.2.2.2 7 (by decide)⟩

/-- C5 counterexample: the source removes every occurrence of the
substring `"PT"` (`str.replace`), it does not strip a fixed prefix: on
`"1PT2S"` the code merges the digits into `"12S"` and returns 12, while
the spec's prefix-stripping algorithm returns 2. -/
theorem parse_duration_replace_all_cex :
    parse_iso8601_duration_to_seconds "1PT2S" = 12 ∧
    parseDurationSpecModel "1PT2S" = 2 ∧
    parse_iso8601_duration_to_seconds "1PT2S" ≠ parseDurationSpecModel "1PT2S" := by
  refine ⟨by decide, by decide, by decide⟩

/-- C5 (amended): the duration codec is total into `ℕ` (non-negative,
never failing, by construction of `parse_iso8601_duration_to_seconds`)
and meets the spec's test values; the `"PT"` handling is removal of
every occurrence of the substring, not a prefix strip. -/
theorem parse_duration_values :
    parse_iso8601_duration_to_seconds "" = 0 ∧
    parse_iso8601_duration_to_seconds "PT1H2M3S" = 3723 ∧
    parse_iso8601_duration_to_seconds "PT90S" = 90 := by
  refine ⟨by decide, by decide, by decide⟩

/-- C10: the identifier parser is total (including Python `None`),
returns `(None, None)` exactly when the stripped input is empty, and on
every other input at least one component of the pair is non-null. -/
theorem extract_channel_totality (inp : Option String) :
    (extract_channel_from_input inp = (none, none) ↔
      pyStrip (inp.getD "").data = []) ∧
    (pyStrip (inp.getD "").data ≠ [] →
      (extract_channel_from_input inp).1 ≠ none ∨
      (extract_channel_from_input inp).2 ≠ none) := by
  unfold extract_channel_from_input extractStripped
  constructor
  · split_ifs <;> simp_all
  · intro hne
    split_ifs <;> simp_all

/-- C10 witness: the non-blank input `"abc"`. -/
theorem extract_channel_totality_witness :
    (extract_channel_from_input (some "abc")).1 ≠ none ∨
    (extract_channel_from_input (some "abc")).2 ≠ none :=
  (extract_channel_totality (some "abc")).2 (by decide)

/-- C3 counterexample: on the empty list the variance is 0, so the
standard deviation is 0 (witnessed by the exact square root
`fun _ => 0`), and `durationUniformity = 1 - 0 / (0 + 1) = 1`, not 0 as
claimed. -/
theorem originality_empty_list_uniformity_cex :
    dur_variance [] = 0 ∧
    (metadata_originality_analysis (fun _ => 0) []).signals.dur_uniformity = 1 ∧
    (metadata_originality_analysis (fun _ => 0) []).signals.dur_uniformity ≠ 0 := by
  refine ⟨by decide, by decide, by decide⟩

/-- C3 (amended): on the empty list the three ratios are 0 via the
`max 1 N` denominator floor, and `durationUniformity` equals 1 (mean
and standard deviation are both 0, giving `1 - 0/(0+1)`), for any model
of the square root that is exact at 0. -/
theorem originality_empty_list_signals (sqrtQ : ℚ → ℚ) (h : sqrtQ 0 = 0) :
    (metadata_originality_analysis sqrtQ []).signals.desc_dup_ratio = 0 ∧
    (metadata_originality_analysis sqrtQ []).signals.empty_desc_ratio = 0 ∧
    (metadata_originality_analysis sqrtQ []).signals.shorts_ratio = 0 ∧
    dur_variance [] = 0 ∧
    (metadata_originality_analysis sqrtQ []).signals.dur_uniformity = 1 := by
  have hv : dur_variance [] = 0 := by decide
  have ha : avg_dur [] = 0 := by decide
  have h1 : desc_dup_ratio [] = 0 := by decide
  have h2 : empty_desc_ratio [] = 0 := by decide
  have h3 : shorts_ratio [] = 0 := by decide
  refine ⟨h1, h2, h3, hv, ?_⟩
  show 1 - sqrtQ (dur_variance []) / (avg_dur [] + 1) = 1
  rw [hv, h, ha]
  norm_num

/-- C3 witness: the amended theorem at the exact square root of 0. -/
theorem originality_empty_list_signals_witness :
    (fun _ : ℚ => (0 : ℚ)) 0 = 0 ∧
    (metadata_originality_analysis (fun _ : ℚ => (0 : ℚ)) []).signals.dur_uniformity = 1 :=
  ⟨rfl, (originality_empty_list_signals (fun _ => 0) rfl).2.2.2.2⟩

/-- The duplicate-description ratio lies in `[0, 1]`. -/
theorem desc_dup_ratio_bounds (vs : List Video) :
    0 ≤ desc_dup_ratio vs ∧ desc_dup_ratio vs ≤ 1 :=
  ⟨natRatio_nonneg _ _,
   natRatio_le_one (le_trans (List.length_filter_le _ _) (le_of_eq (by simp [descsOf])))⟩

/-- The empty-description ratio lies in `[0, 1]`. -/
theorem empty_desc_ratio_bounds (vs : List Video) :
    0 ≤ empty_desc_ratio vs ∧ empty_desc_ratio vs ≤ 1 :=
  ⟨natRatio_nonneg _ _,
   natRatio_le_one (le_trans (List.length_filter_le _ _) (le_of_eq (by simp [descsOf])))⟩

/-- The shorts ratio lies in `[0, 1]`. -/
theorem shorts_ratio_bounds (vs : List Video) :
    0 ≤ shorts_ratio vs ∧ shorts_ratio vs ≤ 1 :=
  ⟨natRatio_nonneg _ _,
   natRatio_le_one (le_trans (List.length_filter_le _ _) (le_of_eq (by simp [durationsOf])))⟩

/-- The clamped-then-truncated score is an integer in `[0, 100]` and
the truncation toward zero coincides with the floor there, for every
value of the square root. -/
theorem final_score_bounds (sqrtQ : ℚ → ℚ) (vs : List Video) :
    final_score sqrtQ vs = ⌊max 0 (min 100 (raw_score sqrtQ vs))⌋ ∧
    0 ≤ final_score sqrtQ vs ∧ final_score sqrtQ vs ≤ 100 := by
  have h0 : (0 : ℚ) ≤ max 0 (min 100 (raw_score sqrtQ vs)) := le_max_left _ _
  have h100 : max 0 (min 100 (raw_score sqrtQ vs)) ≤ 100 :=
    max_le (by norm_num) (min_le_left _ _)
  have hfloor : final_score sqrtQ vs = ⌊max 0 (min 100 (raw_score sqrtQ vs))⌋ := by
    unfold final_score
    exact pyInt_eq_floor_of_nonneg h0
  refine ⟨hfloor, ?_, ?_⟩
  · rw [hfloor]
    exact Int.floor_nonneg.mpr h0
  · rw [hfloor]
    calc ⌊max 0 (min 100 (raw_score sqrtQ vs))⌋ ≤ ⌊(100 : ℚ)⌋ := Int.floor_le_floor h100
      _ = 100 := by norm_num

/-- C1: for every video list (and every value of the floating-point
square root), the three ratio signals lie in `[0, 1]`, and the score is
obtained by clamping the raw score to `[0, 100]` and then truncating
toward zero (which is the floor of the clamped value), giving an
integer in `[0, 100]`. -/
theorem originality_score_and_signals_bounded (sqrtQ : ℚ → ℚ) (vs : List Video) :
    (0 ≤ (metadata_originality_analysis sqrtQ vs).signals.desc_dup_ratio ∧
      (metadata_originality_analysis sqrtQ vs).signals.desc_dup_ratio ≤ 1) ∧
    (0 ≤ (metadata_originality_analysis sqrtQ vs).signals.empty_desc_ratio ∧
      (metadata_originality_analysis sqrtQ vs).signals.empty_desc_ratio ≤ 1) ∧
    (0 ≤ (metadata_originality_analysis sqrtQ vs).signals.shorts_ratio ∧
      (metadata_originality_analysis sqrtQ vs).signals.shorts_ratio ≤ 1) ∧
    (metadata_originality_analysis sqrtQ vs).score
      = pyInt (max 0 (min 100 (raw_score sqrtQ vs))) ∧
    (metadata_originality_analysis sqrtQ vs).score
      = ⌊max 0 (min 100 (raw_score sqrtQ vs))⌋ ∧
    0 ≤ (metadata_originality_analysis sqrtQ vs).score ∧
    (metadata_originality_analysis sqrtQ vs).score ≤ 100 := by
  obtain ⟨hf, h0, h100⟩ := final_score_bounds sqrtQ vs
  exact ⟨desc_dup_ratio_bounds vs, empty_desc_ratio_bounds vs, shorts_ratio_bounds vs,
    rfl, hf, h0, h100⟩

/-- C7 counterexample: a non-empty split whose durations are all 0 has
average 0, which is falsy in Python, so the rendering guard
`f"..." if avg_short else "N/A"` yields `"N/A"` for a non-empty split. -/
theorem avg_duration_human_nonempty_na_cex :
    avg_duration_human [vidZeroDur] = "N/A" ∧ ([vidZeroDur] : List Video) ≠ [] := by
  refine ⟨by decide, by decide⟩

/-- C7 (amended): the human-readable average equals `"N/A"` iff the
split's average duration is 0 (in particular whenever the split is
empty); any split with non-zero average is rendered as `"Xm Ys"` with
`X = ⌊avg / 60⌋` and `Y = ⌊avg mod 60⌋`. -/
theorem avg_duration_human_iff_avg_zero (lst : List Video) :
    (avg_duration_human lst = "N/A" ↔ avg_duration lst = 0) ∧
    (lst = [] → avg_duration lst = 0) ∧
    (avg_duration lst ≠ 0 →
      avg_duration_human lst =
        (⌊avg_duration lst / 60⌋).repr ++ "m " ++
        (⌊avg_duration lst - 60 * ((⌊avg_duration lst / 60⌋ : ℤ) : ℚ)⌋).repr ++ "s") := by
  have hren : avg_duration lst ≠ 0 → avg_duration_human lst =
      (⌊avg_duration lst / 60⌋).repr ++ "m " ++
      (⌊avg_duration lst - 60 * ((⌊avg_duration lst / 60⌋ : ℤ) : ℚ)⌋).repr ++ "s" := by
    intro h
    simp [avg_duration_human, h]
  refine ⟨⟨?_, ?_⟩, ?_, hren⟩
  · intro hNA
    by_contra h
    rw [hren h] at hNA
    have hl := congrArg String.length hNA
    rw [String.length_append, String.length_append, String.length_append] at hl
    have h1 := one_le_int_repr_len ⌊avg_duration lst / 60⌋
    have h2 := one_le_int_repr_len
      ⌊avg_duration lst - 60 * ((⌊avg_duration lst / 60⌋ : ℤ) : ℚ)⌋
    have hm : ("m " : String).length = 2 := by decide
    have hs : ("s" : String).length = 1 := by decide
    have hn : ("N/A" : String).length = 3 := by decide
    omega
  · intro h
    simp [avg_duration_human, h]
  · intro h
    simp [avg_duration, h]

/-- A 90-second video, used to instantiate the rendering branch. -/
def vid90 : Video :=
  { id := "a", title := "t", description := "d", publishedAt := none
    views := 0, durationSeconds := 90 }

/-- C7 witness: the amended theorem's rendering branch at a singleton
90-second split (rendered `"1m 30s"`). -/
theorem avg_duration_human_iff_avg_zero_witness :
    avg_duration [vid90] ≠ 0 ∧
    avg_duration_human [vid90] =
      (⌊avg_duration [vid90] / 60⌋).repr ++ "m " ++
      (⌊avg_duration [vid90] - 60 * ((⌊avg_duration [vid90] / 60⌋ : ℤ) : ℚ)⌋).repr ++ "s" :=
  ⟨by decide, (avg_duration_human_iff_avg_zero [vid90]).2.2 (by decide)⟩

/-- C6: a record parsed exactly at the 30-day cutoff lands in a recent
bucket (inclusive `>=` bound); one second older is excluded; an
unparsable timestamp is excluded from the recency split only, while
still belonging to a lifetime bucket. -/
theorem recency_cutoff_inclusive (env : Env) (v : Video) (vs : List Video)
    (hmem : v ∈ vs) :
    (parsedTS env v = some (cutoff env) →
      v ∈ shorts_30 env vs ∨ v ∈ longs_30 env vs) ∧
    (parsedTS env v = some (cutoff env - 1) →
      v ∉ shorts_30 env vs ∧ v ∉ longs_30 env vs) ∧
    (parsedTS env v = none →
      (v ∉ shorts_30 env vs ∧ v ∉ longs_30 env vs) ∧
      (v ∈ shortsOf vs ∨ v ∈ longsOf vs)) := by
  refine ⟨?_, ?_, ?_⟩
  · intro hp
    have hrec : isRecent env v = true := by simp [isRecent, hp]
    by_cases hd : v.durationSeconds ≤ SHORTS_MAX_SECONDS
    · exact Or.inl (List.mem_filter.mpr ⟨hmem, by simp [hrec, hd]⟩)
    · exact Or.inr (List.mem_filter.mpr ⟨hmem, by simp [hrec, Nat.lt_of_not_le hd]⟩)
  · intro hp
    have hlt : ¬ (cutoff env ≤ cutoff env - 1) := by omega
    have hrec : isRecent env v = false := by simp [isRecent, hp, hlt]
    constructor
    · intro hmemf
      have := (List.mem_filter.mp hmemf).2
      simp [hrec] at this
    · intro hmemf
      have := (List.mem_filter.mp hmemf).2
      simp [hrec] at this
  · intro hp
    have hrec : isRecent env v = false := by simp [isRecent, hp]
    refine ⟨⟨?_, ?_⟩, ?_⟩
    · intro hmemf
      have := (List.mem_filter.mp hmemf).2
      simp [hrec] at this
    · intro hmemf
      have := (List.mem_filter.mp hmemf).2
      simp [hrec] at this
    · by_cases hd : v.durationSeconds ≤ SHORTS_MAX_SECONDS
      · exact Or.inl (List.mem_filter.mpr ⟨hmem, by simp [hd]⟩)
      · exact Or.inr (List.mem_filter.mpr ⟨hmem, by simp [Nat.lt_of_not_le hd]⟩)

/-- C6 witness: the three branches at concrete videos in `envT` (cutoff
at epoch 0): exactly at the cutoff, one second older, unparsable. -/
theorem recency_cutoff_inclusive_witness :
    (vidAtCutoff ∈ shorts_30 envT [vidAtCutoff] ∨
      vidAtCutoff ∈ longs_30 envT [vidAtCutoff]) ∧
    (vidBeforeCutoff ∉ shorts_30 envT [vidBeforeCutoff] ∧
      vidBeforeCutoff ∉ longs_30 envT [vidBeforeCutoff]) ∧
    ((vidNoTS ∉ shorts_30 envT [vidNoTS] ∧ vidNoTS ∉ longs_30 envT [vidNoTS]) ∧
      (vidNoTS ∈ shortsOf [vidNoTS] ∨ vidNoTS ∈ longsOf [vidNoTS])) :=
  ⟨(recency_cutoff_inclusive envT vidAtCutoff [vidAtCutoff] (by decide)).1 (by decide),
   (recency_cutoff_inclusive envT vidBeforeCutoff [vidBeforeCutoff] (by decide)).2.1
     (by decide),
   (recency_cutoff_inclusive envT vidNoTS [vidNoTS] (by decide)).2.2 (by decide)⟩

/-- C8 counterexample: for the all-whitespace input `" "` the analysis
does issue a collaborator network call before failing — a channel-type
search with the empty query — so blank input is not rejected before any
network call. -/
theorem blank_input_network_call_cex :
    (analyze_channel_full envA (some " ")).2 ≠ [] ∧
    (analyze_channel_full envA (some " ")).2 = [ApiCall.search ""] ∧
    (analyze_channel_full envA (some " ")).1
      = Outcome.errorDict "Could not resolve channel ID" := by
  refine ⟨by decide, by decide, by decide⟩

/-- C8 (amended): a blank (empty or all-whitespace) input yields no id
and no hint from the parser, and the orchestrator then falls through to
the search lookup, issuing exactly one channel-search call with the
empty query; when that search finds nothing, the analysis fails with
the resolution error. -/
theorem blank_input_search_called (env : Env) (s : String)
    (hblank : pyStrip s.data = []) (hsearch : env.search "" = none) :
    analyze_channel_full env (some s) =
      (Outcome.errorDict "Could not resolve channel ID", [ApiCall.search ""]) := by
  have hq : (⟨lastSegment (pyStrip s.data)⟩ : String) = "" := by rw [hblank]; rfl
  have hex : extract_channel_from_input (some s) = (none, none) := by
    unfold extract_channel_from_input
    rw [show (some s).getD "" = s from rfl, hblank]
    rfl
  unfold analyze_channel_full resolve_cid
  rw [hex]
  simp only [resolve_handle_to_channel_id, pyOr, hq, hsearch]

/-- C8 witness: the amended theorem at the input `" "` in `envA`. -/
theorem blank_input_search_called_witness :
    pyStrip " ".data = [] ∧ envA.search "" = none ∧
    analyze_channel_full envA (some " ") =
      (Outcome.errorDict "Could not resolve channel ID", [ApiCall.search ""]) :=
  ⟨by decide, rfl, blank_input_search_called envA " " (by decide) rfl⟩

/-- When no analyzed input raises, the batch loop completes and each
input contributes exactly its own outcome — its report into `results`
on success, its `(channel, error)` pair into `errors` on failure — in
input order, and nothing else. -/
theorem analyzeLoop_no_raise (env : Env) (l : List (Option String))
    (hok : ∀ c ∈ l, ((analyze_channel_full env c).1).isRaised = false) :
    analyzeLoop env l =
      Except.ok
        (l.filterMap (fun c => ((analyze_channel_full env c).1).reportPart),
         l.filterMap (fun c => ((analyze_channel_full env c).1).errorEntry c)) := by
  induction l with
  | nil => rfl
  | cons c rest ih =>
    have hc := hok c (List.mem_cons_self c rest)
    have hrest : ∀ x ∈ rest, ((analyze_channel_full env x).1).isRaised = false :=
      fun x hx => hok x (List.mem_cons_of_mem c hx)
    cases h : (analyze_channel_full env c).1 with
    | raised e =>
      rw [h] at hc
      simp [Outcome.isRaised] at hc
    | errorDict e =>
      simp [analyzeLoop, h, ih hrest, Outcome.reportPart, Outcome.errorEntry]
    | report r =>
      simp [analyzeLoop, h, ih hrest, Outcome.reportPart, Outcome.errorEntry]

/-- When no analyzed input raises, the per-input entries partition the
batch: one entry per input. -/
theorem analyzeLoop_no_raise_length (env : Env) (l : List (Option String))
    (hok : ∀ c ∈ l, ((analyze_channel_full env c).1).isRaised = false) :
    (l.filterMap (fun c => ((analyze_channel_full env c).1).reportPart)).length +
    (l.filterMap (fun c => ((analyze_channel_full env c).1).errorEntry c)).length
      = l.length := by
  induction l with
  | nil => rfl
  | cons c rest ih =>
    have hc := hok c (List.mem_cons_self c rest)
    have hrest : ∀ x ∈ rest, ((analyze_channel_full env x).1).isRaised = false :=
      fun x hx => hok x (List.mem_cons_of_mem c hx)
    cases h : (analyze_channel_full env c).1 with
    | raised e =>
      rw [h] at hc
      simp [Outcome.isRaised] at hc
    | errorDict e =>
      have hrp : ((analyze_channel_full env c).1).reportPart = none := by rw [h]; rfl
      have hee : ((analyze_channel_full env c).1).errorEntry c = some (c, e) := by rw [h]; rfl
      simp only [List.filterMap_cons, hrp, hee, List.length_cons]
      have := ih hrest
      omega
    | report r =>
      have hrp : ((analyze_channel_full env c).1).reportPart = some r := by rw [h]; rfl
      have hee : ((analyze_channel_full env c).1).errorEntry c = none := by rw [h]; rfl
      simp only [List.filterMap_cons, hrp, hee, List.length_cons]
      have := ih hrest
      omega

/-- If any analyzed input raises, the loop aborts with an error. -/
theorem analyzeLoop_raise (env : Env) (l : List (Option String))
    (hbad : ∃ c ∈ l, ((analyze_channel_full env c).1).isRaised = true) :
    ∃ e, analyzeLoop env l = Except.error e := by
  induction l with
  | nil =>
    obtain ⟨c, hc, _⟩ := hbad
    exact absurd hc (List.not_mem_nil c)
  | cons c rest ih =>
    cases h : (analyze_channel_full env c).1 with
    | raised e => exact ⟨e, by simp [analyzeLoop, h]⟩
    | errorDict e =>
      obtain ⟨c0, hc0, hr0⟩ := hbad
      rcases List.mem_cons.mp hc0 with hhead | htail
      · rw [hhead, h] at hr0
        simp [Outcome.isRaised] at hr0
      · obtain ⟨e2, he2⟩ := ih ⟨c0, htail, hr0⟩
        exact ⟨e2, by simp [analyzeLoop, h, he2]⟩
    | report r =>
      obtain ⟨c0, hc0, hr0⟩ := hbad
      rcases List.mem_cons.mp hc0 with hhead | htail
      · rw [hhead, h] at hr0
        simp [Outcome.isRaised] at hr0
      · obtain ⟨e2, he2⟩ := ih ⟨c0, htail, hr0⟩
        exact ⟨e2, by simp [analyzeLoop, h, he2]⟩

/-- C2 counterexample: a sibling's transport failure does remove a
computed report.  In `envB`, `"UCvalid"` alone yields a success
response with one report, and `"UCraise"`'s profile lookup raises an
`HttpError`; the batch `["UCvalid", "UCraise"]` then returns the
batch-wide catch-all `{"success": False, "error": "Server error"}`
(HTTP 500) with no per-channel data, discarding the sibling's report —
refuting "one channel's failure never removes or alters a sibling
channel's report". -/
theorem api_analyze_sibling_discard_cex :
    api_analyze envB [some "UCvalid"] ≠ ApiResponse.serverError ∧
    (api_analyze envB [some "UCvalid"]).resultsList.length = 1 ∧
    ((analyze_channel_full envB (some "UCraise")).1).isRaised = true ∧
    api_analyze envB [some "UCvalid", some "UCraise"] = ApiResponse.serverError ∧
    (api_analyze envB [some "UCvalid", some "UCraise"]).resultsList = [] := by
  refine ⟨by decide, by decide, by decide, by decide, by decide⟩

/-- C2 (amended): as long as no analyzed channel's collaborator call
raises, every analyzed input contributes exactly one entry to the
success response — a report in `results`, or a `(channel, error)` pair
in `errors`, each determined only by that channel's own analysis, so a
resolution failure or an absent profile never drops or alters a
sibling's report; but as soon as any analyzed channel raises a
transport error, the whole batch collapses to the catch-all
`Server error` response.  Concretely, `["UCvalid", "UCinvalid"]` in
`envA` (second profile lookup absent, not raising) yields exactly one
report and exactly one error naming `"UCinvalid"`. -/
theorem api_analyze_isolation_without_raise (env : Env) (inputs : List (Option String)) :
    ((∀ c ∈ inputs.take MAX_CHANNELS,
        ((analyze_channel_full env c).1).isRaised = false) →
      api_analyze env inputs =
        ApiResponse.success
          ((inputs.take MAX_CHANNELS).filterMap
            (fun c => ((analyze_channel_full env c).1).reportPart))
          ((inputs.take MAX_CHANNELS).filterMap
            (fun c => ((analyze_channel_full env c).1).errorEntry c)) ∧
      (api_analyze env inputs).resultsList.length +
        (api_analyze env inputs).errorsList.length
          = (inputs.take MAX_CHANNELS).length) ∧
    ((∃ c ∈ inputs.take MAX_CHANNELS,
        ((analyze_channel_full env c).1).isRaised = true) →
      api_analyze env inputs = ApiResponse.serverError) ∧
    (api_analyze envA [some "UCvalid", some "UCinvalid"]).resultsList.length = 1 ∧
    (api_analyze envA [some "UCvalid", some "UCinvalid"]).errorsList
      = [(some "UCinvalid", "Channel not found")] ∧
    api_analyze envA [some "UCvalid", some "UCinvalid"] ≠ ApiResponse.serverError := by
  refine ⟨?_, ?_, by decide, by decide, by decide⟩
  · intro hok
    have hloop := analyzeLoop_no_raise env (inputs.take MAX_CHANNELS) hok
    have hresp : api_analyze env inputs =
        ApiResponse.success
          ((inputs.take MAX_CHANNELS).filterMap
            (fun c => ((analyze_channel_full env c).1).reportPart))
          ((inputs.take MAX_CHANNELS).filterMap
            (fun c => ((analyze_channel_full env c).1).errorEntry c)) := by
      unfold api_analyze
      rw [hloop]
    refine ⟨hresp, ?_⟩
    rw [hresp]
    exact analyzeLoop_no_raise_length env (inputs.take MAX_CHANNELS) hok
  · intro hbad
    obtain ⟨e, he⟩ := analyzeLoop_raise env (inputs.take MAX_CHANNELS) hbad
    unfold api_analyze
    rw [he]

/-- C2 witness: the no-raise branch of the amended theorem at the
concrete batch `["UCvalid", "UCinvalid"]` in `envA`. -/
theorem api_analyze_isolation_without_raise_witness :
    api_analyze envA [some "UCvalid", some "UCinvalid"] =
      ApiResponse.success
        (([some "UCvalid", some "UCinvalid"].take MAX_CHANNELS).filterMap
          (fun c => ((analyze_channel_full envA c).1).reportPart))
        (([some "UCvalid", some "UCinvalid"].take MAX_CHANNELS).filterMap
          (fun c => ((analyze_channel_full envA c).1).errorEntry c)) ∧
    (api_analyze envA [some "UCvalid", some "UCinvalid"]).resultsList.length +
      (api_analyze envA [some "UCvalid", some "UCinvalid"]).errorsList.length
        = ([some "UCvalid", some "UCinvalid"].take MAX_CHANNELS).length :=
  (api_analyze_isolation_without_raise envA [some "UCvalid", some "UCinvalid"]).1
    (by decide)

end YTAnalyzer
